import Mathlib

/-!
Shallow embedding of the document-reconstruction and hybrid field-extraction
pipeline of `pj_bandi_regione_lombardia` (files
`agents/extractor_agent.py` and `main.py`), together with theorems settling
the frozen claims about it.

Modelling conventions:
* Python strings are `String`; `str.strip` is `String.trim`, `str.split` is
  `String.splitOn`, slicing `s[:n]` is `String.take`, `len` is `String.length`.
* A Python `dict[str, str]` is an insertion-ordered association list
  `List (String × String)`; `dictSet` reproduces `d[k] = v` (update in place,
  append when the key is new) and `dictGet` reproduces `d.get(k)`.
* Calls into external collaborators (the RAG retrieval `rag_system.generate`,
  the language model `self.llm.call`, the JSON decoder `json.loads`, and the
  clock `datetime.now()`) are parameters of the embedding, with `Option`
  results: `none` models a raised exception (or a failed decode).
* Page numbers from `metadata.get('page', 0)` are modelled as `Int`, matching
  the spec's data model (`page: integer`) and the loop sentinel `-1`.
* Prompt literals reproduce the source's f-string text with the Python
  source-code indentation stripped; their exact wording never influences
  control flow, since the language model is universally quantified.
-/

namespace BandiLombardia

/-- The unspecified sentinel `"Non specificato"` used throughout the code. -/
def sentinel : String := "Non specificato"

/-! ### Kernel-computable models of the Python string primitives

These replace the corresponding Lean library functions (whose well-founded
recursion does not reduce inside `decide`) with structurally recursive
equivalents of the Python operations the source uses. -/

/-- Python `str.split(sep)` for a one-character separator, on char lists:
split at every occurrence, keeping empty pieces (`''.split` gives `['']`). -/
def splitCharList (c : Char) : List Char → List (List Char)
  | [] => [[]]
  | x :: xs =>
      match splitCharList c xs with
      | [] => [[]]
      | curr :: rest => if x == c then [] :: curr :: rest else (x :: curr) :: rest

/-- Python `str.split(sep)` for a one-character separator. -/
def pySplit (c : Char) (s : String) : List String :=
  (splitCharList c s.toList).map String.mk

/-- Python `str.strip()`: drop leading and trailing whitespace. -/
def pyStrip (s : String) : String :=
  String.mk (((s.toList.dropWhile Char.isWhitespace).reverse.dropWhile Char.isWhitespace).reverse)

/-- Decimal value of a digit string. -/
def digitsVal (l : List Char) : Nat := l.foldl (fun acc c => acc * 10 + (c.toNat - 48)) 0

/-- Decimal rendering of a `Nat`, fuel-based so that it reduces in the
kernel. -/
def natToCharsAux : Nat → Nat → List Char
  | 0, _ => []
  | fuel + 1, n =>
      if n < 10 then [Nat.digitChar n] else natToCharsAux fuel (n / 10) ++ [Nat.digitChar (n % 10)]

/-- Decimal rendering of a `Nat` (Python `str(n)` for `n ≥ 0`). -/
def natToString (n : Nat) : String := String.mk (natToCharsAux (n + 1) n)

/-- Decimal rendering of an `Int` (Python `str(page)` inside the f-string). -/
def intToString : Int → String
  | .ofNat n => natToString n
  | .negSucc m => "-" ++ natToString (m + 1)

/-- A retrieved document fragment: `doc.page_content` plus the
`source` and `page` entries of `doc.metadata`
(`extractor_agent.py` lines 35-42). -/
structure Fragment where
  content : String
  source : String
  page : Int
deriving DecidableEq, Repr

/-- The page-boundary marker inserted by the reconstruction loop:
`f"\n\n--- PAGINA {chunk['page']} ---\n\n"` (`extractor_agent.py` line 53). -/
def pageMarker (p : Int) : String := "\n\n--- PAGINA " ++ intToString p ++ " ---\n\n"

/-- The manual source filter (`extractor_agent.py` lines 35-42): keep the
fragments whose `metadata.get('source')` equals the requested file. -/
def keptChunks (results : List Fragment) (source_file : String) : List Fragment :=
  results.filter (fun f => f.source == source_file)

/-- The sort order of `all_chunks.sort(key=lambda x: x['page'])`: compare the
pages. -/
def pageLe (a b : Fragment) : Prop := a.page ≤ b.page

instance : DecidableRel pageLe := fun a b => inferInstanceAs (Decidable (a.page ≤ b.page))

instance : IsTotal Fragment pageLe := ⟨fun a b => Int.le_total a.page b.page⟩

instance : IsTrans Fragment pageLe := ⟨fun _ _ _ => Int.le_trans⟩

/-- `all_chunks.sort(key=lambda x: x['page'])` (line 45): Python's stable
ascending sort by page. Any stable sort computes the same list; it is
modelled by the (stable, structurally recursive) insertion sort. -/
def sortedChunks (results : List Fragment) (source_file : String) : List Fragment :=
  (keptChunks results source_file).insertionSort pageLe

/-- The reconstruction loop (`extractor_agent.py` lines 48-55): starting from
accumulator `full_document` and `current_page`, append a page marker whenever
the page changes, then the chunk content followed by a newline. -/
def buildDocument : List Fragment → String → Int → String
  | [], acc, _ => acc
  | c :: rest, acc, cur =>
      if c.page ≠ cur then
        buildDocument rest (acc ++ pageMarker c.page ++ c.content ++ "\n") c.page
      else
        buildDocument rest (acc ++ c.content ++ "\n") cur

/-- `reconstruct_full_document` (`extractor_agent.py` lines 21-62), success
path: filter the retrieved fragments by source, sort by page, and run the
reconstruction loop with `full_document = ""` and `current_page = -1`. -/
def reconstruct_full_document (results : List Fragment) (source_file : String) : String :=
  buildDocument (sortedChunks results source_file) "" (-1)

/-! ### Calendar model: `datetime` values and `strptime(chiusura, "%d/%m/%Y")` -/

/-- A Python `datetime` value: a Gregorian calendar date plus the time of day
(collapsed to seconds; only its order matters). `datetime.now()` carries the
current time of day, while `datetime.strptime(s, "%d/%m/%Y")` yields
midnight (`secondsOfDay = 0`). -/
structure PyDateTime where
  year : Nat
  month : Nat
  day : Nat
  secondsOfDay : Nat
deriving DecidableEq, Repr

/-- Comparison `oggi <= data_chiusura` between `datetime` values: lexicographic
on (year, month, day, time of day). -/
def dtLe (a b : PyDateTime) : Bool :=
  if a.year ≠ b.year then a.year < b.year
  else if a.month ≠ b.month then a.month < b.month
  else if a.day ≠ b.day then a.day < b.day
  else a.secondsOfDay ≤ b.secondsOfDay

/-- Date-only comparison (year, month, day), ignoring the time of day. -/
def dateOnlyLe (a b : PyDateTime) : Bool :=
  if a.year ≠ b.year then a.year < b.year
  else if a.month ≠ b.month then a.month < b.month
  else a.day ≤ b.day

/-- Same calendar day, ignoring the time of day. -/
def sameDate (a b : PyDateTime) : Bool :=
  a.year == b.year && a.month == b.month && a.day == b.day

/-- Strictly earlier calendar day, ignoring the time of day. -/
def dateOnlyLt (a b : PyDateTime) : Bool :=
  dateOnlyLe a b && !sameDate a b

/-- Gregorian leap year, as in Python's `calendar`/`datetime`. -/
def isLeap (y : Nat) : Bool := (y % 4 == 0 && y % 100 != 0) || y % 400 == 0

/-- Days in a month of the Gregorian calendar. -/
def daysInMonth (y m : Nat) : Nat :=
  if m == 2 then (if isLeap y then 29 else 28)
  else if m == 4 || m == 6 || m == 9 || m == 11 then 30 else 31

/-- The `%d` field of `strptime`: one digit `1`-`9` or two digits `01`-`31`
(CPython matches `3[01]|[12]\d|0[1-9]|[1-9]`). -/
def dayFieldVal (s : String) : Option Nat :=
  let l := s.toList
  if l.all Char.isDigit then
    let v := digitsVal l
    if (l.length == 1 && 1 ≤ v) || (l.length == 2 && 1 ≤ v && v ≤ 31) then some v else none
  else none

/-- The `%m` field of `strptime`: one digit `1`-`9` or two digits `01`-`12`
(CPython matches `1[0-2]|0[1-9]|[1-9]`). -/
def monthFieldVal (s : String) : Option Nat :=
  let l := s.toList
  if l.all Char.isDigit then
    let v := digitsVal l
    if (l.length == 1 && 1 ≤ v) || (l.length == 2 && 1 ≤ v && v ≤ 12) then some v else none
  else none

/-- The `%Y` field of `strptime`: exactly four digits. -/
def yearFieldVal (s : String) : Option Nat :=
  let l := s.toList
  if l.length == 4 && l.all Char.isDigit then some (digitsVal l) else none

/-- `datetime.strptime(s, "%d/%m/%Y")` (`extractor_agent.py` line 268):
the string must be day `/` month `/` year with the three numeric fields as
above, the year at least 1, and the day valid for the Gregorian month
(otherwise `ValueError` is raised, modelled as `none`). The result is
midnight of the parsed day. -/
def parseStrptimeDMY (s : String) : Option PyDateTime :=
  match pySplit '/' s with
  | [ds, ms, ys] =>
      match dayFieldVal ds, monthFieldVal ms, yearFieldVal ys with
      | some d, some m, some y =>
          if 1 ≤ y ∧ d ≤ daysInMonth y m then some ⟨y, m, d, 0⟩ else none
      | _, _, _ => none
  | _ => none

/-! ### Field configuration and the date validator -/

/-- The date validator lambda attached to the `Apertura` and `Chiusura`
configurations (`extractor_agent.py` lines 173 and 180):
`lambda x: x == "Non specificato" or (len(x.split('/')) == 3 and x[2] == '/')`.
`none` models the `IndexError` raised by `x[2]` when `x` is shorter than
three characters (Python's `or`/`and` short-circuit exactly as encoded). -/
def dateValidatorRaw (x : String) : Option Bool :=
  if x == sentinel then some true
  else if (pySplit '/' x).length == 3 then
    (x.toList.get? 2).map (fun c => c == '/')
  else some false

/-- A validator either returns a verdict or raises (`none`). -/
def ValidatorFn : Type := String → Option Bool

/-- One entry of `field_configs` (`extractor_agent.py` lines 155-200):
retrieval query, interpretation instruction, examples, expected format and an
optional validator predicate. -/
structure FieldConfig where
  query : String
  instruction : String
  examples : String
  format : String
  validator : Option ValidatorFn

/-- The specialized prompt for `Apertura`/`Chiusura`
(`extractor_agent.py` lines 83-105). -/
def datePrompt (fieldName : String) (cfg : FieldConfig) (ragContent : String) : String :=
  "Dai seguenti contesti, estrai la data di " ++ fieldName.toLower ++ " del bando.\n\n" ++
  "CONTESTI TROVATI:\n" ++ ragContent ++ "\n\n" ++
  "ISTRUZIONI SPECIFICHE:\n" ++ cfg.instruction ++ "\n\n" ++
  "IMPORTANTE per l'estrazione delle date:\n" ++
  "1. Se trovi una data in formato testuale (es. \"28 marzo 2025\", \"15 aprile\"), convertila in DD/MM/YYYY\n" ++
  "2. Se manca l'anno, deducilo dal contesto (cerca riferimenti come \"campagna 2025\", \"bando 2025-2026\")\n" ++
  "3. Mesi in italiano: gennaio=01, febbraio=02, marzo=03, aprile=04, maggio=05, giugno=06,\n" ++
  "   luglio=07, agosto=08, settembre=09, ottobre=10, novembre=11, dicembre=12\n" ++
  "4. Esempi di conversione:\n" ++
  "   - \"28 marzo 2025\" → \"28/03/2025\"\n" ++
  "   - \"dal 15 aprile\" (in un bando 2025) → \"15/04/2025\"\n" ++
  "   - \"entro il 30 giugno 2025\" → \"30/06/2025\"\n\n" ++
  "FORMATO RICHIESTO: DD/MM/YYYY\n\n" ++
  "Rispondi SOLO con la data nel formato DD/MM/YYYY. Se non trovi la data, rispondi \"Non specificato\".\n"

/-- The standard prompt for all other fields
(`extractor_agent.py` lines 108-124). -/
def standardPrompt (fieldName : String) (cfg : FieldConfig) (ragContent : String) : String :=
  "Dai seguenti contesti, estrai SOLO il valore per \"" ++ fieldName ++ "\".\n\n" ++
  "CONTESTI TROVATI:\n" ++ ragContent ++ "\n\n" ++
  "ISTRUZIONI SPECIFICHE:\n" ++ cfg.instruction ++ "\n\n" ++
  "FORMATO ATTESO:\n" ++ cfg.format ++ "\n\n" ++
  "ESEMPI DI VALORI VALIDI:\n" ++ cfg.examples ++ "\n\n" ++
  "Rispondi SOLO con il valore estratto. Se non trovi l'informazione, rispondi \"Non specificato\".\n"

/-- The prompt `extract_field_with_rag` sends to the language model: the
date-specialized one for `Apertura`/`Chiusura`, the standard one otherwise
(`extractor_agent.py` line 82). -/
def buildFieldPrompt (fieldName : String) (cfg : FieldConfig) (ragContent : String) : String :=
  if fieldName == "Apertura" || fieldName == "Chiusura" then
    datePrompt fieldName cfg ragContent
  else
    standardPrompt fieldName cfg ragContent

/-- The body of the `try` block of `extract_field_with_rag`
(`extractor_agent.py` lines 76-137): retrieval, prompt, model call, trim,
optional validation. `Except.error ()` marks any raised exception (a failing
collaborator, or a validator that itself raises). -/
def extract_field_with_rag_inner (rag llm : String → Option String)
    (fieldName : String) (cfg : FieldConfig) : Except Unit String :=
  match rag cfg.query with
  | none => .error ()
  | some ragContent =>
      match llm (buildFieldPrompt fieldName cfg ragContent) with
      | none => .error ()
      | some response =>
          let value := pyStrip response
          match cfg.validator with
          | some v =>
              match v value with
              | none => .error ()
              | some true => .ok value
              | some false => .ok sentinel
          | none => .ok value

/-- `extract_field_with_rag` (`extractor_agent.py` lines 64-141): the `try`
body with the `except` clause converting any raised exception to the
sentinel. -/
def extract_field_with_rag (rag llm : String → Option String)
    (fieldName : String) (cfg : FieldConfig) : String :=
  match extract_field_with_rag_inner rag llm fieldName cfg with
  | .ok v => v
  | .error _ => sentinel

/-! ### Insertion-ordered string dictionary (Python `dict[str, str]`) -/

/-- The extraction record: an insertion-ordered mapping from field name to
string value. -/
abbrev Record : Type := List (String × String)

/-- `d[k] = v`: replace in place when the key exists, append otherwise. -/
def dictSet : Record → String → String → Record
  | [], k, v => [(k, v)]
  | (k', v') :: rest, k, v =>
      if k' == k then (k', v) :: rest else (k', v') :: dictSet rest k v

/-- `d.get(k)` (no default): `none` when the key is absent. -/
def dictGet : Record → String → Option String
  | [], _ => none
  | (k', v') :: rest, k => if k' == k then some v' else dictGet rest k

/-- `d.get(k, default)`. -/
def dictGetD (d : Record) (k default : String) : String := (dictGet d k).getD default

/-! ### The per-field configuration table (`extractor_agent.py` lines 155-200) -/

/-- `field_configs`, in source order. The two date entries carry the
syntactic date validator. -/
def field_configs : List (String × FieldConfig) :=
  [ ("Ente erogatore",
     { query := "ente erogatore regione lombardia direzione generale amministrazione decreto"
       instruction := "Identifica l'ente che emette il bando. Cerca 'Regione Lombardia', 'DG', 'Direzione Generale', etc."
       examples := "Regione Lombardia, Regione Lombardia - DG Sviluppo Economico, Camera di Commercio Milano"
       format := "Nome completo dell'ente"
       validator := none }),
    ("Titolo dell'avviso",
     { query := "titolo avviso bando decreto oggetto denominazione"
       instruction := "Trova il titolo ufficiale completo del bando. Spesso dopo 'OGGETTO:' o 'AVVISO' o in intestazione"
       examples := "BANDO SMART WORKING 2024, Avviso pubblico per contributi digitalizzazione PMI"
       format := "Titolo completo senza abbreviazioni"
       validator := none }),
    ("Apertura",
     { query := "apertura sportello presentazione domande inizio partire dal giorno marzo aprile maggio giugno luglio agosto settembre ottobre novembre dicembre gennaio febbraio"
       instruction := "Cerca la data da cui è possibile presentare domanda. Cerca frasi come: 'a partire dal', 'apertura sportello', 'dalle ore', 'dal giorno', 'presentazione domande dal'. Controlla anche date scritte in forma testuale come '28 marzo 2025', '15 aprile', etc. Se trovi solo mese e giorno, aggiungi l'anno basandoti sul contesto del bando."
       examples := "15/01/2024, 01/02/2024, 28/03/2025, dal 15 marzo 2025"
       format := "DD/MM/YYYY"
       validator := some dateValidatorRaw }),
    ("Chiusura",
     { query := "scadenza termine chiusura presentazione domande entro ultimo giorno ore marzo aprile maggio giugno luglio agosto settembre ottobre novembre dicembre gennaio febbraio"
       instruction := "Trova l'ultimo giorno utile per presentare domanda. Cerca: 'entro il', 'termine', 'scadenza', 'fino al', 'chiusura sportello', 'ultimo giorno', 'ore 12:00 del'. Attenzione a date in forma testuale come '30 aprile 2025'. Se trovi solo giorno e mese, deduci l'anno dal contesto."
       examples := "31/12/2024, 30/06/2024, 15/09/2024, entro il 30 aprile 2025"
       format := "DD/MM/YYYY"
       validator := some dateValidatorRaw }),
    ("Dotazione finanziaria",
     { query := "dotazione finanziaria budget stanziamento risorse disponibili totale euro"
       instruction := "Identifica l'importo totale stanziato per il bando. Includi sempre il simbolo €"
       examples := "€ 10.000.000, € 5.000.000,00, 2 milioni di euro"
       format := "Importo con simbolo €"
       validator := none }),
    ("Contributo",
     { query := "contributo massimo finanziamento importo agevolazione intensità aiuto percentuale"
       instruction := "Trova tipo e importo massimo del contributo per beneficiario. Specifica se fondo perduto o finanziamento"
       examples := "Fino a € 100.000 a fondo perduto, 50% delle spese ammissibili max € 200.000"
       format := "Tipo e importo con €"
       validator := none }),
    ("Beneficiari",
     { query := "soggetti beneficiari destinatari possono partecipare requisiti PMI startup"
       instruction := "Chi può partecipare al bando? Elenca tutti i soggetti ammissibili"
       examples := "PMI lombarde, Micro e piccole imprese, Startup innovative con sede in Lombardia"
       format := "Elenco soggetti ammissibili"
       validator := none }) ]

/-! ### External collaborators -/

/-- The external collaborators of one hybrid extraction run, all universally
quantified in the theorems below: the retrieval port `rag_system.generate`,
the language model `self.llm.call` (`none` models a raised exception), the
JSON decoder `json.loads` (`none` models `JSONDecodeError`, abstracted since
the decoder is library code), and the clock `datetime.now()`. -/
structure Ports where
  ragGenerate : String → Option String
  llmCall : String → Option String
  jsonLoads : String → Option Record
  now : PyDateTime

/-! ### JSON serialization used inside the validation prompt -/

/-- Escape one character as `json.dumps` (with `ensure_ascii=False`) does. -/
def jsonEscapeChar (c : Char) : String :=
  if c == '"' then "\\\""
  else if c == '\\' then "\\\\"
  else if c == '\n' then "\\n"
  else if c == '\t' then "\\t"
  else if c == '\r' then "\\r"
  else if c.toNat == 8 then "\\b"
  else if c.toNat == 12 then "\\f"
  else if c.toNat < 32 then
    "\\u00" ++ String.mk [Nat.digitChar (c.toNat / 16), Nat.digitChar (c.toNat % 16)]
  else String.singleton c

/-- JSON string escaping, character by character. -/
def jsonEscape (s : String) : String := String.join (s.toList.map jsonEscapeChar)

/-- `json.dumps(d, ensure_ascii=False, indent=2)` for a string-to-string
dictionary, in insertion order. -/
def jsonDumps (d : Record) : String :=
  match d with
  | [] => "\x7b\x7d"
  | _ =>
      "\x7b\n" ++
      String.intercalate ",\n"
        (d.map (fun kv => "  \"" ++ jsonEscape kv.1 ++ "\": \"" ++ jsonEscape kv.2 ++ "\"")) ++
      "\n\x7d"

/-! ### The hybrid extraction steps (`extract_structured_info_hybrid`) -/

/-- Step 1 (`extractor_agent.py` lines 202-214): extract every configured
field through `extract_field_with_rag`, in table order, into a fresh
record. -/
def step1Fields (ports : Ports) : Record :=
  field_configs.foldl
    (fun d nc => dictSet d nc.1 (extract_field_with_rag ports.ragGenerate ports.llmCall nc.1 nc.2))
    []

/-- The description-synthesis prompt (`extractor_agent.py` lines 221-233). -/
def descPrompt (doc : String) (d : Record) : String :=
  "Basandoti su questo estratto del bando e sui dati già estratti, crea una descrizione sintetica (max 150 parole) di cosa finanzia il bando:\n\n" ++
  "ESTRATTO DOCUMENTO:\n" ++ doc.take 2000 ++ "\n\n" ++
  "DATI GIÀ ESTRATTI:\n" ++
  "Ente: " ++ dictGetD d "Ente erogatore" "N/A" ++ "\n" ++
  "Titolo: " ++ dictGetD d "Titolo dell'avviso" "N/A" ++ "\n" ++
  "Beneficiari: " ++ dictGetD d "Beneficiari" "N/A" ++ "\n\n" ++
  "Descrivi: obiettivi principali, cosa viene finanziato, finalità del bando.\n"

/-- Description synthesis (`extractor_agent.py` lines 219-238): only when the
full document exceeds 500 characters; a model failure falls back to a fixed
sentence. Below the threshold the key is not written at all. -/
def step2Desc (ports : Ports) (doc : String) (d : Record) : Record :=
  if doc.length > 500 then
    match ports.llmCall (descPrompt doc d) with
    | some r => dictSet d "Descrizione aggiuntiva" (pyStrip r)
    | none => dictSet d "Descrizione aggiuntiva" "Bando per il finanziamento di progetti innovativi"
  else d

/-- The keyword-extraction prompt (`extractor_agent.py` lines 241-251). -/
def keywordsPrompt (doc : String) (d : Record) : String :=
  "Estrai 5-7 parole chiave che caratterizzano questo bando.\n\n" ++
  "TITOLO: " ++ dictGetD d "Titolo dell'avviso" "N/A" ++ "\n" ++
  "BENEFICIARI: " ++ dictGetD d "Beneficiari" "N/A" ++ "\n\n" ++
  "ESTRATTO:\n" ++ doc.take 1000 ++ "\n\n" ++
  "Rispondi SOLO con le parole chiave separate da virgola.\n"

/-- Keyword extraction (`extractor_agent.py` lines 253-256): a model failure
falls back to a fixed keyword set. -/
def step2Keywords (ports : Ports) (doc : String) (d : Record) : Record :=
  match ports.llmCall (keywordsPrompt doc d) with
  | some r => dictSet d "Parole chiave" (pyStrip r)
  | none => dictSet d "Parole chiave" "innovazione, digitalizzazione, PMI, Lombardia"

/-- Open-status derivation from the closing-date field
(`extractor_agent.py` lines 258-284): when the field is not the sentinel,
parse it with `strptime("%d/%m/%Y")` and compare `datetime.now()` against the
parsed midnight; a parse failure or a sentinel field yields the sentinel. -/
def computeAperto (now : PyDateTime) (chiusura : String) : String :=
  if chiusura != sentinel then
    match parseStrptimeDMY chiusura with
    | some dt => if dtLe now dt then "si" else "no"
    | none => sentinel
  else sentinel

/-- Writes the `Aperto` key (`extractor_agent.py` lines 258-284). -/
def step2Aperto (ports : Ports) (d : Record) : Record :=
  dictSet d "Aperto" (computeAperto ports.now (dictGetD d "Chiusura" sentinel))

/-- `'needle' in hay` (Python substring test). -/
def containsSub (hay needle : String) : Bool := decide (needle.toList <:+: hay.toList)

/-- `line.split(':', 1)[1]`: everything after the first colon (the callers
only use it on lines that contain a colon). -/
def afterFirstColon (line : String) : String :=
  String.intercalate ":" ((pySplit ':' line).tail)

/-- The broad date re-search prompt (`extractor_agent.py` lines 294-312). -/
def dateSearchPrompt (doc : String) : String :=
  "Nel seguente documento, trova le date di apertura e chiusura per la presentazione delle domande.\n\n" ++
  "DOCUMENTO:\n" ++ doc.take 5000 ++ "\n\n" ++
  "Cerca con attenzione:\n" ++
  "- Date in formato testuale (es. \"28 marzo\", \"15 aprile 2025\")\n" ++
  "- Riferimenti a \"apertura sportello\", \"presentazione domande dal\"\n" ++
  "- Riferimenti a \"scadenza\", \"termine ultimo\", \"chiusura sportello\"\n" ++
  "- Orari specifici (es. \"ore 12:00 del 30 aprile\")\n\n" ++
  "Se trovi date in formato testuale, convertile in DD/MM/YYYY.\n" ++
  "Se manca l'anno, deducilo dal contesto (campagna 2025, bando 2025-2026, etc.)\n\n" ++
  "Rispondi in questo formato:\n" ++
  "Apertura: [data in formato DD/MM/YYYY o \"Non trovata\"]\n" ++
  "Chiusura: [data in formato DD/MM/YYYY o \"Non trovata\"]\n"

/-- `date_value = line.split(':', 1)[1].strip()`
(`extractor_agent.py` lines 321 and 326). -/
def dateLineCandidate (line : String) : String := pyStrip (afterFirstColon line)

/-- One iteration of the response-parsing loop of the targeted date re-search
(`extractor_agent.py` lines 319-329): a line mentioning `Apertura:` (or, in
the `elif`, `Chiusura:`) may fill the corresponding field, but only when that
field is still the sentinel and the candidate is not `"Non trovata"` and
contains a slash. -/
def applyDateLine (d : Record) (line : String) : Record :=
  if containsSub line "Apertura:" && dictGet d "Apertura" == some sentinel then
    if dateLineCandidate line != "Non trovata" && containsSub (dateLineCandidate line) "/" then
      dictSet d "Apertura" (dateLineCandidate line)
    else d
  else if containsSub line "Chiusura:" && dictGet d "Chiusura" == some sentinel then
    if dateLineCandidate line != "Non trovata" && containsSub (dateLineCandidate line) "/" then
      dictSet d "Chiusura" (dateLineCandidate line)
    else d
  else d

/-- The whole response-parsing loop over
`date_response.strip().split('\n')`. -/
def applyDateLines (d : Record) (lines : List String) : Record :=
  lines.foldl applyDateLine d

/-- Step 3a, targeted date re-search (`extractor_agent.py` lines 293-331):
runs only when either date field is still the sentinel; a model failure
leaves the record unchanged. -/
def step3Dates (ports : Ports) (doc : String) (d : Record) : Record :=
  if dictGet d "Apertura" == some sentinel || dictGet d "Chiusura" == some sentinel then
    match ports.llmCall (dateSearchPrompt doc) with
    | some resp => applyDateLines d (pySplit '\n' (pyStrip resp))
    | none => d
  else d

/-- The whole-record cross-check prompt (`extractor_agent.py` lines
333-344). -/
def validationPrompt (d : Record) (doc : String) : String :=
  "Verifica questi dati estratti confrontandoli con il documento.\n" ++
  "Se trovi informazioni mancanti o errate, correggile.\n\n" ++
  "DATI ESTRATTI:\n" ++ jsonDumps d ++ "\n\n" ++
  "ESTRATTO DOCUMENTO PER VERIFICA:\n" ++ doc.take 3000 ++ "\n\n" ++
  "Rispondi SOLO con il JSON corretto e completo. Non aggiungere spiegazioni.\n"

/-- One iteration of the merge loop (`extractor_agent.py` lines 353-356):
copy a validated value only onto a key that is present and still the
sentinel, and only when the new value is not the sentinel. -/
def mergeOne (d : Record) (kv : String × String) : Record :=
  if dictGet d kv.1 == some sentinel && kv.2 != sentinel then dictSet d kv.1 kv.2 else d

/-- The whole merge loop over `validated_data.items()`. -/
def mergeValidated (d : Record) (validated : Record) : Record :=
  validated.foldl mergeOne d

/-- `'\x7b'` (the opening curly brace character). -/
def braceOpen : Char := Char.ofNat 123

/-- `'\x7d'` (the closing curly brace character). -/
def braceClose : Char := Char.ofNat 125

/-- Step 3b, whole-record cross-check (`extractor_agent.py` lines 333-358):
call the model, carve `response[response.find('\x7b') : response.rfind('\x7d')+1]`,
decode it, and merge monotonically; any failure leaves the record
unchanged. -/
def step3Validation (ports : Ports) (doc : String) (d : Record) : Record :=
  match ports.llmCall (validationPrompt d doc) with
  | none => d
  | some response =>
      match response.toList.findIdx? (· == braceOpen),
            response.toList.reverse.findIdx? (· == braceClose) with
      | some i, some j' =>
          if i < response.toList.length - j' then
            match ports.jsonLoads (String.mk ((response.toList.drop i).take
                (response.toList.length - j' - i))) with
            | some validated => mergeValidated d validated
            | none => d
          else d
      | _, _ => d

/-- `extract_structured_info_hybrid` (`extractor_agent.py` lines 143-361):
per-field extraction, description synthesis, keyword extraction, open-status
derivation, source filename, targeted date re-search, whole-record
cross-check. The `source_file` argument is accepted and unused, as in the
source. -/
def extract_structured_info_hybrid (ports : Ports)
    (full_document filename _sourceFile : String) : Record :=
  let d := step1Fields ports
  let d := step2Desc ports full_document d
  let d := step2Keywords ports full_document d
  let d := step2Aperto ports d
  let d := dictSet d "Nome file" filename
  let d := step3Dates ports full_document d
  step3Validation ports full_document d

/-- Outcome of one orchestrated run: either the extracted record or the
halt on an empty reconstruction. -/
inductive RunOutcome where
  | extracted (record : Record)
  | reconstructionFailed
deriving DecidableEq

/-- `run_extractor_agent` (`main.py` lines 86-161), reduced to the decision
the claims are about: reconstruct the document and run the hybrid extraction
only when the result is non-empty (`if full_document:`), otherwise halt with
a failure message. -/
def run_extractor_agent (ports : Ports) (results : List Fragment)
    (source_file filename : String) : RunOutcome :=
  let full_document := reconstruct_full_document results source_file
  if full_document ≠ "" then
    .extracted (extract_structured_info_hybrid ports full_document filename source_file)
  else
    .reconstructionFailed

/-! ### Helper lemmas -/

/-- The reconstruction loop's accumulator is a prefix of its result. -/
theorem buildDocument_acc : ∀ (l : List Fragment) (acc : String) (cur : Int),
    buildDocument l acc cur = acc ++ buildDocument l "" cur
  | [], acc, cur => by simp [buildDocument]
  | c :: rest, acc, cur => by
      unfold buildDocument
      by_cases h : c.page = cur
      · rw [if_neg (by simp [h]), if_neg (by simp [h])]
        rw [buildDocument_acc rest (acc ++ c.content ++ "\n") cur,
            buildDocument_acc rest ("" ++ c.content ++ "\n") cur]
        simp [String.append_assoc]
      · rw [if_pos h, if_pos h]
        rw [buildDocument_acc rest (acc ++ pageMarker c.page ++ c.content ++ "\n") c.page,
            buildDocument_acc rest ("" ++ pageMarker c.page ++ c.content ++ "\n") c.page]
        simp [String.append_assoc]

/-- A successful `strptime` always yields midnight. -/
theorem parseStrptimeDMY_secondsOfDay {s : String} {dt : PyDateTime}
    (h : parseStrptimeDMY s = some dt) : dt.secondsOfDay = 0 := by
  unfold parseStrptimeDMY at h
  split at h
  · split at h
    · split at h
      · cases h; rfl
      · exact absurd h (by simp)
    all_goals exact absurd h (by simp)
  · exact absurd h (by simp)

/-- The sentinel is not a parseable date. -/
theorem parseStrptimeDMY_sentinel : parseStrptimeDMY sentinel = none := by decide

set_option linter.unnecessarySeqFocus false in
/-- Comparing an arbitrary `datetime` against a midnight value: `dtLe` holds
exactly when the left date is strictly earlier, or the dates coincide and the
left time of day is exactly midnight. -/
theorem dtLe_midnight (now dt : PyDateTime) (h : dt.secondsOfDay = 0) :
    dtLe now dt = true ↔
      (dateOnlyLt now dt = true ∨ (sameDate now dt = true ∧ now.secondsOfDay = 0)) := by
  obtain ⟨a, b, c, s⟩ := now
  obtain ⟨a', b', c', s'⟩ := dt
  simp only at h
  subst h
  unfold dtLe dateOnlyLt dateOnlyLe sameDate
  by_cases h1 : a = a' <;> by_cases h2 : b = b' <;> by_cases h3 : c = c' <;>
    simp [h1, h2, h3] <;> omega

/-! ### C3: the two-fragment reconstruction scenario -/

/-- C3 counterexample: for the fragment set
`[{page:2, content:"B"}, {page:1, content:"A"}]` with source `"x"`, the
reconstruction is NOT of the form `"A"` ++ marker ++ `"B"` for any marker
string: a page marker is emitted before `"A"` as well, and every content
line ends with a newline. -/
theorem reconstruct_scenario_counterexample :
    ¬ ∃ marker : String,
      reconstruct_full_document [⟨"B", "x", 2⟩, ⟨"A", "x", 1⟩] "x" = "A" ++ marker ++ "B" := by
  rintro ⟨m, h⟩
  rw [show reconstruct_full_document [⟨"B", "x", 2⟩, ⟨"A", "x", 1⟩] "x" =
        "\n\n--- PAGINA 1 ---\n\nA\n\n\n--- PAGINA 2 ---\n\nB\n" from by decide] at h
  have h2 := congrArg String.data h
  simp [String.data_append] at h2

/-- C3 amended: the fragment set `[{page:2, content:"B"}, {page:1, content:"A"}]`
for source `"x"` reconstructs to the page-1 marker, then `"A"` and a newline,
then the page-2 marker, then `"B"` and a newline. -/
theorem reconstruct_scenario_amended :
    reconstruct_full_document [⟨"B", "x", 2⟩, ⟨"A", "x", 1⟩] "x" =
      pageMarker 1 ++ "A\n" ++ pageMarker 2 ++ "B\n" := by decide

/-! ### C6: the date-field validator -/

/-- C6 counterexample: `"1/1/2024"` splits on `'/'` into exactly three
components and is not the sentinel, yet the validator rejects it (its third
character is `'1'`, not `'/'`), so acceptance is not equivalent to the
three-component condition of the claim. -/
theorem date_validator_counterexample :
    dateValidatorRaw "1/1/2024" = some false ∧
    (pySplit '/' "1/1/2024").length = 3 ∧ "1/1/2024" ≠ sentinel := by decide

/-- C6 amended: the validator accepts a trimmed value exactly when it equals
the sentinel, or it splits on `'/'` into exactly three components AND its
third character is `'/'` (so the day part has exactly two characters); values
of fewer than three characters make the check raise, which the enclosing
handler turns into a rejection. The claim's three examples behave as
stated. -/
theorem date_validator_amended :
    (∀ x : String, dateValidatorRaw x = some true ↔
      (x = sentinel ∨ ((pySplit '/' x).length = 3 ∧ x.toList.get? 2 = some '/'))) ∧
    dateValidatorRaw "31/12/2024" = some true ∧
    dateValidatorRaw "31-12-2024" = some false ∧
    dateValidatorRaw "Non specificato" = some true := by
  refine ⟨fun x => ?_, by decide, by decide, by decide⟩
  unfold dateValidatorRaw
  split
  · next h => simp_all [beq_iff_eq]
  · next h =>
    split
    · next h3 =>
      simp only [beq_iff_eq] at h h3
      simp [Option.map_eq_some', h, h3]
    · next h3 =>
      simp only [beq_iff_eq] at h h3
      simp [h, h3]

/-! ### C7: open-status derivation -/

/-- C7 counterexample: with closing date `"01/01/2000"` (which parses) and
the current instant at noon of that very day, today is on or before the
closing date (date-only comparison), yet the code derives `"no"`: the
comparison is against midnight of the closing day, not against its date. -/
theorem open_status_counterexample :
    parseStrptimeDMY "01/01/2000" = some ⟨2000, 1, 1, 0⟩ ∧
    dateOnlyLe ⟨2000, 1, 1, 43200⟩ ⟨2000, 1, 1, 0⟩ = true ∧
    computeAperto ⟨2000, 1, 1, 43200⟩ "01/01/2000" = "no" := by decide

/-- C7 amended: when the closing-date field parses as a `DD/MM/YYYY` calendar
date, the status is `"si"` exactly when the current instant is strictly
before the closing day, or is exactly midnight at its start (i.e.
`datetime.now() <= closing-midnight`), and `"no"` otherwise; a sentinel or
unparseable field yields the sentinel. -/
theorem open_status_amended :
    (∀ (now : PyDateTime) (ch : String) (dt : PyDateTime),
      parseStrptimeDMY ch = some dt →
      computeAperto now ch =
        if dateOnlyLt now dt = true ∨ (sameDate now dt = true ∧ now.secondsOfDay = 0)
        then "si" else "no") ∧
    (∀ now : PyDateTime, computeAperto now sentinel = sentinel) ∧
    (∀ (now : PyDateTime) (ch : String), parseStrptimeDMY ch = none →
      computeAperto now ch = sentinel) := by
  refine ⟨?_, ?_, ?_⟩
  · intro now ch dt hp
    have hs := parseStrptimeDMY_secondsOfDay hp
    have hch : ch ≠ sentinel := by
      rintro rfl
      rw [parseStrptimeDMY_sentinel] at hp
      exact Option.noConfusion hp
    unfold computeAperto
    simp only [hch, bne_iff_ne, ne_eq, not_false_eq_true, if_true, hp]
    exact if_congr (dtLe_midnight now dt hs) rfl rfl
  · intro now
    unfold computeAperto
    simp
  · intro now ch hp
    unfold computeAperto
    by_cases hch : ch = sentinel
    · simp [hch]
    · simp [hch, hp]

/-- C7 amended witness: the day before the closing date `"31/12/2024"`, the
notice is open. -/
theorem open_status_amended_witness :
    computeAperto ⟨2024, 12, 30, 100⟩ "31/12/2024" = "si" := by
  have h := open_status_amended.1 ⟨2024, 12, 30, 100⟩ "31/12/2024" ⟨2024, 12, 31, 0⟩ (by decide)
  rw [h]
  decide

/-! ### C8: per-field failures are contained -/

/-- C8: a failure of the retrieval collaborator, or of the language model on
the field's interpretation prompt, is caught inside the single-field
extraction and converted to the sentinel; the function is total, so the call
never propagates an exception to its caller. -/
theorem field_failure_sentinel (rag llm : String → Option String) (fieldName : String)
    (cfg : FieldConfig) :
    (rag cfg.query = none → extract_field_with_rag rag llm fieldName cfg = sentinel) ∧
    (∀ ctx, rag cfg.query = some ctx →
      llm (buildFieldPrompt fieldName cfg ctx) = none →
      extract_field_with_rag rag llm fieldName cfg = sentinel) := by
  constructor
  · intro h
    simp [extract_field_with_rag, extract_field_with_rag_inner, h]
  · intro ctx h1 h2
    simp [extract_field_with_rag, extract_field_with_rag_inner, h1, h2]

/-- C8 witness: the spec's scenario — a `FieldExtractor` whose language model
always fails returns the sentinel for that field. -/
theorem field_failure_sentinel_witness :
    extract_field_with_rag (fun _ => some "contesto") (fun _ => none) "Apertura"
      { query := "q", instruction := "i", examples := "e", format := "f",
        validator := some dateValidatorRaw } = sentinel :=
  (field_failure_sentinel (fun _ => some "contesto") (fun _ => none) "Apertura" _).2
    "contesto" rfl rfl

/-! ### C9: the orchestrator halts on an empty reconstruction -/

/-- C9: `run_extractor_agent` signals failure without running the hybrid
extraction exactly when the reconstructed document is empty, and runs the
hybrid extraction on the reconstructed document otherwise. -/
theorem orchestrator_halts (ports : Ports) (results : List Fragment)
    (source_file filename : String) :
    (reconstruct_full_document results source_file = "" →
      run_extractor_agent ports results source_file filename =
        RunOutcome.reconstructionFailed) ∧
    (reconstruct_full_document results source_file ≠ "" →
      run_extractor_agent ports results source_file filename =
        RunOutcome.extracted (extract_structured_info_hybrid ports
          (reconstruct_full_document results source_file) filename source_file)) := by
  constructor
  · intro h
    unfold run_extractor_agent
    simp [h]
  · intro h
    unfold run_extractor_agent
    simp [h]

/-- A ports bundle whose collaborators all fail, used by witnesses. -/
def failingPorts : Ports :=
  { ragGenerate := fun _ => none
    llmCall := fun _ => none
    jsonLoads := fun _ => none
    now := ⟨2025, 1, 1, 0⟩ }

/-- C9 witness: with no retrieved fragments the reconstruction is empty and
the run halts with a failure. -/
theorem orchestrator_halts_witness :
    run_extractor_agent failingPorts [] "x" "f.pdf" = RunOutcome.reconstructionFailed :=
  (orchestrator_halts failingPorts [] "x" "f.pdf").1 (by decide)

/-! ### C10: the marker before the first fragment -/

/-- C10 counterexample: a fragment whose page equals `-1` — the loop's
initial `current_page` sentinel — produces no leading page marker at all, so
the reconstructed text does not always begin with the first fragment's page
marker. -/
theorem first_marker_counterexample :
    reconstruct_full_document [⟨"A", "x", -1⟩] "x" = "A\n" ∧
    ¬ ((pageMarker (-1)).toList <+: "A\n".toList) := by decide

/-- C10 amended: whenever the first fragment (in sorted order) of a non-empty
match set has page different from `-1`, the reconstructed text begins with
that fragment's page marker. -/
theorem first_marker_amended (results : List Fragment) (s : String) (c : Fragment)
    (rest : List Fragment) (h : sortedChunks results s = c :: rest) (hp : c.page ≠ -1) :
    ∃ r, reconstruct_full_document results s = pageMarker c.page ++ r := by
  unfold reconstruct_full_document
  rw [h]
  unfold buildDocument
  rw [if_pos hp, buildDocument_acc]
  exact ⟨c.content ++ "\n" ++ buildDocument rest "" c.page, by simp [String.append_assoc]⟩

/-- C10 amended witness: a single page-1 fragment reconstructs to text
beginning with the page-1 marker. -/
theorem first_marker_amended_witness :
    ∃ r, reconstruct_full_document [⟨"A", "x", 1⟩] "x" = pageMarker 1 ++ r :=
  first_marker_amended [⟨"A", "x", 1⟩] "x" ⟨"A", "x", 1⟩ [] (by decide) (by decide)

/-! ### C4: stable sort by page -/

/-- C4: the fragments kept for reconstruction are sorted so that pages are
monotonic non-decreasing, and the sort is stable: for every page value, the
fragments carrying that page appear in exactly their retrieval order. -/
theorem fragments_sorted_stable (results : List Fragment) (s : String) :
    List.Pairwise pageLe (sortedChunks results s) ∧
    ∀ p : Int,
      (sortedChunks results s).filter (fun c => c.page == p) =
        (keptChunks results s).filter (fun c => c.page == p) := by
  constructor
  · exact List.sorted_insertionSort pageLe (keptChunks results s)
  · intro p
    have hall : ∀ c ∈ (keptChunks results s).filter (fun c => c.page == p), c.page = p := by
      intro c hc
      have h2 := (List.mem_filter.mp hc).2
      simpa using h2
    have hpair : ((keptChunks results s).filter (fun c => c.page == p)).Pairwise pageLe := by
      apply List.pairwise_of_forall_mem_list
      intro a ha b hb
      show a.page ≤ b.page
      rw [hall a ha, hall b hb]
    have hsub := List.sublist_insertionSort hpair (List.filter_sublist (keptChunks results s))
    have hsub2 : List.Sublist ((keptChunks results s).filter (fun c => c.page == p))
        ((sortedChunks results s).filter (fun c => c.page == p)) := by
      have h3 := hsub.filter (fun c => c.page == p)
      rwa [List.filter_eq_self.mpr (fun a ha => (List.mem_filter.mp ha).2)] at h3
    have hperm : ((sortedChunks results s).filter (fun c => c.page == p)).Perm
        ((keptChunks results s).filter (fun c => c.page == p)) :=
      (List.perm_insertionSort pageLe (keptChunks results s)).filter _
    exact (hsub2.eq_of_length hperm.length_eq.symm).symm

/-! ### C5: foreign fragments never enter the reconstruction -/

/-- C5: the reconstructed text is entirely determined by the fragments whose
source equals the requested identifier — removing every other fragment
leaves the output unchanged — and every fragment entering the reconstruction
loop carries the requested source. -/
theorem foreign_fragments_excluded (results : List Fragment) (s : String) :
    reconstruct_full_document results s =
      reconstruct_full_document (results.filter (fun f => f.source == s)) s ∧
    ∀ c ∈ sortedChunks results s, c.source = s := by
  constructor
  · unfold reconstruct_full_document sortedChunks keptChunks
    rw [List.filter_eq_self.mpr (fun a ha => (List.mem_filter.mp ha).2)]
  · intro c hc
    have hmem : c ∈ keptChunks results s := (List.mem_insertionSort pageLe).mp hc
    have h2 := (List.mem_filter.mp hmem).2
    simpa using h2

/-- C5 witness: on a two-fragment list with one foreign fragment, dropping
the foreign fragment leaves the reconstruction unchanged, and the kept
fragment carries the requested source. -/
theorem foreign_fragments_excluded_witness :
    reconstruct_full_document [⟨"A", "x", 1⟩, ⟨"B", "y", 1⟩] "x" =
      reconstruct_full_document
        (([⟨"A", "x", 1⟩, ⟨"B", "y", 1⟩] : List Fragment).filter
          (fun f => f.source == "x")) "x" ∧
    (⟨"A", "x", 1⟩ : Fragment).source = "x" :=
  ⟨(foreign_fragments_excluded [⟨"A", "x", 1⟩, ⟨"B", "y", 1⟩] "x").1,
   (foreign_fragments_excluded [⟨"A", "x", 1⟩, ⟨"B", "y", 1⟩] "x").2
     ⟨"A", "x", 1⟩ (by decide)⟩

/-! ### Dictionary lemmas -/

/-- Lookup after update. -/
theorem dictGet_dictSet : ∀ (d : Record) (k v k' : String),
    dictGet (dictSet d k v) k' = if k = k' then some v else dictGet d k'
  | [], k, v, k' => by
      simp [dictSet, dictGet]
  | (k₀, v₀) :: rest, k, v, k' => by
      by_cases h0 : k₀ = k
      · subst h0
        by_cases h1 : k₀ = k' <;> simp [dictSet, dictGet, h1]
      · have hne : (k₀ == k) = false := by simpa using h0
        by_cases h1 : k₀ = k'
        · subst h1
          have : ¬ k = k₀ := fun hh => h0 hh.symm
          simp [dictSet, dictGet, hne, this]
        · simp [dictSet, dictGet, hne, h1, dictGet_dictSet rest k v k']

/-- A successful lookup comes from an entry of the list. -/
theorem dictGet_mem : ∀ {d : Record} {k v : String}, dictGet d k = some v → (k, v) ∈ d
  | [], _, _, h => by simp [dictGet] at h
  | (k₀, v₀) :: rest, k, v, h => by
      by_cases h0 : k₀ = k
      · subst h0
        simp [dictGet] at h
        simp [h]
      · have hne : (k₀ == k) = false := by simpa using h0
        simp [dictGet, hne] at h
        exact List.mem_cons_of_mem _ (dictGet_mem h)

/-! ### Key-presence transport through the pipeline steps -/

/-- Presence after `dictSet`. -/
theorem isSome_dictSet (d : Record) (k v k' : String) :
    (dictGet (dictSet d k v) k').isSome = true ↔
      (k' = k ∨ (dictGet d k').isSome = true) := by
  rw [dictGet_dictSet]
  constructor
  · intro hs
    by_cases h : k = k'
    · exact Or.inl h.symm
    · right
      rwa [if_neg h] at hs
  · intro hor
    by_cases h : k = k'
    · rw [if_pos h]
      rfl
    · rcases hor with h1 | h2
      · exact absurd h1.symm h
      · rwa [if_neg h]

/-- Presence after the description step: the description key appears exactly
when the document is long enough; everything else is untouched. -/
theorem isSome_step2Desc (ports : Ports) (doc : String) (d : Record) (k : String) :
    (dictGet (step2Desc ports doc d) k).isSome = true ↔
      ((doc.length > 500 ∧ k = "Descrizione aggiuntiva") ∨ (dictGet d k).isSome = true) := by
  unfold step2Desc
  by_cases h : doc.length > 500
  · cases hc : ports.llmCall (descPrompt doc d) <;>
      simp [h, hc, isSome_dictSet]
  · simp [h]

/-- Presence after the keyword step. -/
theorem isSome_step2Keywords (ports : Ports) (doc : String) (d : Record) (k : String) :
    (dictGet (step2Keywords ports doc d) k).isSome = true ↔
      (k = "Parole chiave" ∨ (dictGet d k).isSome = true) := by
  unfold step2Keywords
  cases hc : ports.llmCall (keywordsPrompt doc d) <;> simp [hc, isSome_dictSet]

/-- Presence after the open-status step. -/
theorem isSome_step2Aperto (ports : Ports) (d : Record) (k : String) :
    (dictGet (step2Aperto ports d) k).isSome = true ↔
      (k = "Aperto" ∨ (dictGet d k).isSome = true) := by
  unfold step2Aperto
  simp [isSome_dictSet]

/-- The date re-search line handler writes only to keys that are already
present, so presence is unchanged. -/
theorem isSome_applyDateLine (d : Record) (line : String) (k : String) :
    (dictGet (applyDateLine d line) k).isSome = (dictGet d k).isSome := by
  unfold applyDateLine
  split
  · next h =>
    simp only [Bool.and_eq_true, beq_iff_eq] at h
    split
    · rw [dictGet_dictSet]
      by_cases hk : "Apertura" = k
      · rw [if_pos hk, ← hk, h.2]
        rfl
      · rw [if_neg hk]
    · rfl
  · split
    · next h2 =>
      simp only [Bool.and_eq_true, beq_iff_eq] at h2
      split
      · rw [dictGet_dictSet]
        by_cases hk : "Chiusura" = k
        · rw [if_pos hk, ← hk, h2.2]
          rfl
        · rw [if_neg hk]
      · rfl
    · rfl

/-- Presence is unchanged by the whole date re-search response loop. -/
theorem isSome_applyDateLines (lines : List String) : ∀ (d : Record) (k : String),
    (dictGet (applyDateLines d lines) k).isSome = (dictGet d k).isSome := by
  induction lines with
  | nil => intro d k; rfl
  | cons l rest ih =>
      intro d k
      show (dictGet (applyDateLines (applyDateLine d l) rest) k).isSome = _
      rw [ih, isSome_applyDateLine]

/-- Presence after the targeted date re-search. -/
theorem isSome_step3Dates (ports : Ports) (doc : String) (d : Record) (k : String) :
    (dictGet (step3Dates ports doc d) k).isSome = (dictGet d k).isSome := by
  unfold step3Dates
  split
  · cases hc : ports.llmCall (dateSearchPrompt doc) <;> simp [hc, isSome_applyDateLines]
  · rfl

/-- The cross-check merge writes only to keys that are already present, so
presence is unchanged. -/
theorem isSome_mergeOne (d : Record) (kv : String × String) (k : String) :
    (dictGet (mergeOne d kv) k).isSome = (dictGet d k).isSome := by
  unfold mergeOne
  split
  · next h =>
    simp only [Bool.and_eq_true, beq_iff_eq] at h
    rw [dictGet_dictSet]
    by_cases hk : kv.1 = k
    · rw [if_pos hk, ← hk, h.1]
      rfl
    · rw [if_neg hk]
  · rfl

/-- Presence is unchanged by the whole merge loop. -/
theorem isSome_mergeValidated (validated : Record) : ∀ (d : Record) (k : String),
    (dictGet (mergeValidated d validated) k).isSome = (dictGet d k).isSome := by
  induction validated with
  | nil => intro d k; rfl
  | cons kv rest ih =>
      intro d k
      show (dictGet (mergeValidated (mergeOne d kv) rest) k).isSome = _
      rw [ih, isSome_mergeOne]

/-- Presence after the whole-record cross-check. -/
theorem isSome_step3Validation (ports : Ports) (doc : String) (d : Record) (k : String) :
    (dictGet (step3Validation ports doc d) k).isSome = (dictGet d k).isSome := by
  unfold step3Validation
  split
  · rfl
  · split
    · split
      · split
        · simp [isSome_mergeValidated]
        · rfl
      · rfl
    · rfl

/-! ### Monotonicity of the consistency-validation pass -/

/-- A non-sentinel value survives one date re-search line. -/
theorem applyDateLine_preserves (d : Record) (line k v : String)
    (hv : dictGet d k = some v) (hne : v ≠ sentinel) :
    dictGet (applyDateLine d line) k = some v := by
  unfold applyDateLine
  split
  · next h =>
    simp only [Bool.and_eq_true, beq_iff_eq] at h
    split
    · rw [dictGet_dictSet]
      by_cases hk : "Apertura" = k
      · rw [← hk, h.2] at hv
        exact absurd (Option.some.inj hv).symm hne
      · rw [if_neg hk]
        exact hv
    · exact hv
  · split
    · next h2 =>
      simp only [Bool.and_eq_true, beq_iff_eq] at h2
      split
      · rw [dictGet_dictSet]
        by_cases hk : "Chiusura" = k
        · rw [← hk, h2.2] at hv
          exact absurd (Option.some.inj hv).symm hne
        · rw [if_neg hk]
          exact hv
      · exact hv
    · exact hv

/-- A non-sentinel value survives the whole date re-search loop. -/
theorem applyDateLines_preserves (lines : List String) : ∀ (d : Record) (k v : String),
    dictGet d k = some v → v ≠ sentinel →
    dictGet (applyDateLines d lines) k = some v := by
  induction lines with
  | nil => intro d k v hv _; exact hv
  | cons l rest ih =>
      intro d k v hv hne
      show dictGet (applyDateLines (applyDateLine d l) rest) k = some v
      exact ih _ _ _ (applyDateLine_preserves d l k v hv hne) hne

/-- One date re-search line either leaves a key unchanged or upgrades it from
the sentinel to a non-sentinel value. -/
theorem applyDateLine_changes (d : Record) (line k : String) :
    dictGet (applyDateLine d line) k = dictGet d k ∨
    (dictGet d k = some sentinel ∧
      ∃ w, dictGet (applyDateLine d line) k = some w ∧ w ≠ sentinel) := by
  unfold applyDateLine
  split
  · next h =>
    simp only [Bool.and_eq_true, beq_iff_eq] at h
    split
    · next hcond =>
      simp only [Bool.and_eq_true] at hcond
      rw [dictGet_dictSet]
      by_cases hk : "Apertura" = k
      · right
        refine ⟨by rw [← hk, h.2], dateLineCandidate line, by rw [if_pos hk], ?_⟩
        intro weq
        rw [weq] at hcond
        exact absurd hcond.2 (by decide)
      · left
        rw [if_neg hk]
    · exact Or.inl rfl
  · split
    · next h2 =>
      simp only [Bool.and_eq_true, beq_iff_eq] at h2
      split
      · next hcond =>
        simp only [Bool.and_eq_true] at hcond
        rw [dictGet_dictSet]
        by_cases hk : "Chiusura" = k
        · right
          refine ⟨by rw [← hk, h2.2], dateLineCandidate line, by rw [if_pos hk], ?_⟩
          intro weq
          rw [weq] at hcond
          exact absurd hcond.2 (by decide)
        · left
          rw [if_neg hk]
      · exact Or.inl rfl
    · exact Or.inl rfl

/-- The whole date re-search loop either leaves a key unchanged or upgrades
it from the sentinel to a non-sentinel value. -/
theorem applyDateLines_changes (lines : List String) : ∀ (d : Record) (k : String),
    dictGet (applyDateLines d lines) k = dictGet d k ∨
    (dictGet d k = some sentinel ∧
      ∃ w, dictGet (applyDateLines d lines) k = some w ∧ w ≠ sentinel) := by
  induction lines with
  | nil => intro d k; exact Or.inl rfl
  | cons l rest ih =>
      intro d k
      show dictGet (applyDateLines (applyDateLine d l) rest) k = _ ∨ _
      rcases applyDateLine_changes d l k with h1 | ⟨hs, w, hw, hwne⟩
      · rcases ih (applyDateLine d l) k with h2 | ⟨hs2, w2, hw2, hw2ne⟩
        · exact Or.inl (h2.trans h1)
        · rw [h1] at hs2
          exact Or.inr ⟨hs2, w2, hw2, hw2ne⟩
      · exact Or.inr ⟨hs, w, applyDateLines_preserves rest _ _ _ hw hwne, hwne⟩

/-- A non-sentinel value survives one cross-check merge step. -/
theorem mergeOne_preserves (d : Record) (kv : String × String) (k v : String)
    (hv : dictGet d k = some v) (hne : v ≠ sentinel) :
    dictGet (mergeOne d kv) k = some v := by
  unfold mergeOne
  split
  · next h =>
    simp only [Bool.and_eq_true, beq_iff_eq] at h
    rw [dictGet_dictSet]
    by_cases hk : kv.1 = k
    · rw [← hk, h.1] at hv
      exact absurd (Option.some.inj hv).symm hne
    · rw [if_neg hk]
      exact hv
  · exact hv

/-- A non-sentinel value survives the whole cross-check merge loop. -/
theorem mergeValidated_preserves (validated : Record) : ∀ (d : Record) (k v : String),
    dictGet d k = some v → v ≠ sentinel →
    dictGet (mergeValidated d validated) k = some v := by
  induction validated with
  | nil => intro d k v hv _; exact hv
  | cons kv rest ih =>
      intro d k v hv hne
      show dictGet (mergeValidated (mergeOne d kv) rest) k = some v
      exact ih _ _ _ (mergeOne_preserves d kv k v hv hne) hne

/-- One cross-check merge step either leaves a key unchanged or upgrades it
from the sentinel to a non-sentinel value. -/
theorem mergeOne_changes (d : Record) (kv : String × String) (k : String) :
    dictGet (mergeOne d kv) k = dictGet d k ∨
    (dictGet d k = some sentinel ∧
      ∃ w, dictGet (mergeOne d kv) k = some w ∧ w ≠ sentinel) := by
  unfold mergeOne
  split
  · next h =>
    simp only [Bool.and_eq_true, beq_iff_eq, bne_iff_ne, ne_eq] at h
    rw [dictGet_dictSet]
    by_cases hk : kv.1 = k
    · right
      exact ⟨by rw [← hk, h.1], kv.2, by rw [if_pos hk], h.2⟩
    · left
      rw [if_neg hk]
  · exact Or.inl rfl

/-- The whole cross-check merge loop either leaves a key unchanged or
upgrades it from the sentinel to a non-sentinel value. -/
theorem mergeValidated_changes (validated : Record) : ∀ (d : Record) (k : String),
    dictGet (mergeValidated d validated) k = dictGet d k ∨
    (dictGet d k = some sentinel ∧
      ∃ w, dictGet (mergeValidated d validated) k = some w ∧ w ≠ sentinel) := by
  induction validated with
  | nil => intro d k; exact Or.inl rfl
  | cons kv rest ih =>
      intro d k
      show dictGet (mergeValidated (mergeOne d kv) rest) k = _ ∨ _
      rcases mergeOne_changes d kv k with h1 | ⟨hs, w, hw, hwne⟩
      · rcases ih (mergeOne d kv) k with h2 | ⟨hs2, w2, hw2, hw2ne⟩
        · exact Or.inl (h2.trans h1)
        · rw [h1] at hs2
          exact Or.inr ⟨hs2, w2, hw2, hw2ne⟩
      · exact Or.inr ⟨hs, w, mergeValidated_preserves rest _ _ _ hw hwne, hwne⟩

/-- A non-sentinel value survives the targeted date re-search step. -/
theorem step3Dates_preserves (ports : Ports) (doc : String) (d : Record) (k v : String)
    (hv : dictGet d k = some v) (hne : v ≠ sentinel) :
    dictGet (step3Dates ports doc d) k = some v := by
  unfold step3Dates
  split
  · cases hc : ports.llmCall (dateSearchPrompt doc) with
    | none => simp only [hc]; exact hv
    | some resp => simp only [hc]; exact applyDateLines_preserves _ _ _ _ hv hne
  · exact hv

/-- The targeted date re-search either leaves a key unchanged or upgrades it
from the sentinel to a non-sentinel value. -/
theorem step3Dates_changes (ports : Ports) (doc : String) (d : Record) (k : String) :
    dictGet (step3Dates ports doc d) k = dictGet d k ∨
    (dictGet d k = some sentinel ∧
      ∃ w, dictGet (step3Dates ports doc d) k = some w ∧ w ≠ sentinel) := by
  unfold step3Dates
  split
  · cases hc : ports.llmCall (dateSearchPrompt doc) with
    | none => exact Or.inl rfl
    | some resp => exact applyDateLines_changes _ _ _
  · exact Or.inl rfl

/-- A non-sentinel value survives the whole-record cross-check step. -/
theorem step3Validation_preserves (ports : Ports) (doc : String) (d : Record) (k v : String)
    (hv : dictGet d k = some v) (hne : v ≠ sentinel) :
    dictGet (step3Validation ports doc d) k = some v := by
  unfold step3Validation
  split
  · exact hv
  · split
    · split
      · split
        · exact mergeValidated_preserves _ _ _ _ hv hne
        · exact hv
      · exact hv
    · exact hv

/-- The whole-record cross-check either leaves a key unchanged or upgrades it
from the sentinel to a non-sentinel value. -/
theorem step3Validation_changes (ports : Ports) (doc : String) (d : Record) (k : String) :
    dictGet (step3Validation ports doc d) k = dictGet d k ∨
    (dictGet d k = some sentinel ∧
      ∃ w, dictGet (step3Validation ports doc d) k = some w ∧ w ≠ sentinel) := by
  unfold step3Validation
  split
  · exact Or.inl rfl
  · split
    · split
      · split
        · exact mergeValidated_changes _ _ _
        · exact Or.inl rfl
      · exact Or.inl rfl
    · exact Or.inl rfl

/-! ### C2: the consistency-validation pass merges monotonically -/

/-- C2: across the whole consistency-validation pass (targeted date re-search
followed by the whole-record cross-check), for every record, document and
collaborator behaviour: a field holding a non-sentinel value is never
replaced, and any field that changes at all goes from the sentinel to a
non-sentinel value. -/
theorem consistency_validation_monotonic (ports : Ports) (doc : String) (d : Record) :
    (∀ k v, dictGet d k = some v → v ≠ sentinel →
      dictGet (step3Validation ports doc (step3Dates ports doc d)) k = some v) ∧
    (∀ k, dictGet (step3Validation ports doc (step3Dates ports doc d)) k ≠ dictGet d k →
      dictGet d k = some sentinel ∧
      ∃ w, dictGet (step3Validation ports doc (step3Dates ports doc d)) k = some w ∧
        w ≠ sentinel) := by
  constructor
  · intro k v hv hne
    exact step3Validation_preserves _ _ _ _ _ (step3Dates_preserves _ _ _ _ _ hv hne) hne
  · intro k hchanged
    rcases step3Dates_changes ports doc d k with h1 | ⟨hs1, w1, hw1, hw1ne⟩
    · rcases step3Validation_changes ports doc (step3Dates ports doc d) k with
        h2 | ⟨hs2, w2, hw2, hw2ne⟩
      · exact absurd (h2.trans h1) hchanged
      · rw [h1] at hs2
        exact ⟨hs2, w2, hw2, hw2ne⟩
    · exact ⟨hs1, w1, step3Validation_preserves _ _ _ _ _ hw1 hw1ne, hw1ne⟩

/-- A ports bundle whose model actively tries to overwrite both date fields
(through the re-search line and through a decoded cross-check record),
used by the C2 witness. -/
def overwritingPorts : Ports :=
  { ragGenerate := fun _ => none
    llmCall := fun _ => some "\x7bok\x7d Apertura: 01/01/2020"
    jsonLoads := fun _ => some [("Chiusura", "99/99/9999"), ("Apertura", "77/77/7777")]
    now := ⟨2025, 1, 1, 0⟩ }

/-- C2 witness: a closing date already resolved to `"31/12/2024"` survives a
validation pass whose model proposes replacements for it. -/
theorem consistency_validation_monotonic_witness :
    dictGet (step3Validation overwritingPorts "doc" (step3Dates overwritingPorts "doc"
      [("Apertura", sentinel), ("Chiusura", "31/12/2024")])) "Chiusura" =
      some "31/12/2024" :=
  (consistency_validation_monotonic overwritingPorts "doc"
    [("Apertura", sentinel), ("Chiusura", "31/12/2024")]).1 "Chiusura" "31/12/2024"
    (by decide) (by decide)

/-! ### C1: shape of the final record -/

/-- A ports bundle whose retrieval succeeds and whose model answers every
prompt with whitespace only, used by the C1 counterexample. -/
def blankPorts : Ports :=
  { ragGenerate := fun _ => some "contesto"
    llmCall := fun _ => some "   "
    jsonLoads := fun _ => none
    now := ⟨2025, 1, 1, 0⟩ }

/-- C1 counterexample, refuting both halves of the claim.
Key clause: with an empty reconstructed document (empty retrieval) and
failing collaborators, the returned record does not contain the
additional-description key at all, because `"Descrizione aggiuntiva"` is
written only when the document exceeds 500 characters.
Value clause: a model that answers with whitespace only makes the issuing
body field the trimmed empty string (which is neither non-empty nor the
sentinel), and an empty caller-supplied filename is copied verbatim into an
empty source-filename field. -/
theorem record_shape_counterexample :
    dictGet (extract_structured_info_hybrid failingPorts "" "f.pdf" "")
      "Descrizione aggiuntiva" = none ∧
    dictGet (extract_structured_info_hybrid blankPorts "" "f.pdf" "")
      "Ente erogatore" = some "" ∧
    dictGet (extract_structured_info_hybrid failingPorts "" "" "")
      "Nome file" = some "" ∧
    ("" : String) ≠ sentinel := by decide

/-- Presence of a key in the final record, reduced to the per-field step and
the derived-field steps. -/
theorem isSome_hybrid (ports : Ports) (doc fname sfile k : String) :
    (dictGet (extract_structured_info_hybrid ports doc fname sfile) k).isSome = true ↔
      ((dictGet (step1Fields ports) k).isSome = true ∨
       (doc.length > 500 ∧ k = "Descrizione aggiuntiva") ∨
       k = "Parole chiave" ∨ k = "Aperto" ∨ k = "Nome file") := by
  unfold extract_structured_info_hybrid
  simp only [isSome_step3Validation, isSome_step3Dates, isSome_dictSet,
    isSome_step2Aperto, isSome_step2Keywords, isSome_step2Desc]
  tauto

/-- C1 amended: the final record always contains the seven retrieved fields,
the keyword, open-status and source-filename keys; it contains the
additional-description key exactly when the reconstructed document exceeds
500 characters; and when the language model always fails and the filename is
non-empty, every value in the record is a non-empty string or exactly the
sentinel. -/
theorem record_shape_amended (ports : Ports) (doc fname sfile : String) :
    (∀ k, k ∈ (["Ente erogatore", "Titolo dell'avviso", "Apertura", "Chiusura",
        "Dotazione finanziaria", "Contributo", "Beneficiari",
        "Parole chiave", "Aperto", "Nome file"] : List String) →
      (dictGet (extract_structured_info_hybrid ports doc fname sfile) k).isSome = true) ∧
    ((dictGet (extract_structured_info_hybrid ports doc fname sfile)
        "Descrizione aggiuntiva").isSome = true ↔ doc.length > 500) ∧
    ((∀ p, ports.llmCall p = none) → fname ≠ "" →
      ∀ k v, dictGet (extract_structured_info_hybrid ports doc fname sfile) k = some v →
        v ≠ "") := by
  refine ⟨?_, ?_, ?_⟩
  · intro k hk
    fin_cases hk <;> rw [isSome_hybrid] <;> first | exact Or.inl rfl | tauto
  · rw [isSome_hybrid]
    constructor
    · rintro (h1 | ⟨hlen, _⟩ | h3 | h4 | h5)
      · rw [show dictGet (step1Fields ports) "Descrizione aggiuntiva" = none from rfl] at h1
        simp at h1
      · exact hlen
      · exact absurd h3 (by decide)
      · exact absurd h4 (by decide)
      · exact absurd h5 (by decide)
    · intro h
      exact Or.inr (Or.inl ⟨h, rfl⟩)
  · intro hllm hf k v hkv
    have e1 : step1Fields ports =
        [("Ente erogatore", sentinel), ("Titolo dell'avviso", sentinel),
         ("Apertura", sentinel), ("Chiusura", sentinel),
         ("Dotazione finanziaria", sentinel), ("Contributo", sentinel),
         ("Beneficiari", sentinel)] := by
      have hf7 : ∀ (n : String) (cfg : FieldConfig),
          extract_field_with_rag ports.ragGenerate ports.llmCall n cfg = sentinel := by
        intro n cfg
        unfold extract_field_with_rag extract_field_with_rag_inner
        cases hr : ports.ragGenerate cfg.query with
        | none => rfl
        | some ctx => simp [hllm]
      unfold step1Fields field_configs
      simp only [List.foldl, hf7]
      rfl
    have hdesc : ∀ d : Record, step2Desc ports doc d =
        if doc.length > 500 then
          dictSet d "Descrizione aggiuntiva" "Bando per il finanziamento di progetti innovativi"
        else d := by
      intro d
      unfold step2Desc
      split
      · rw [hllm (descPrompt doc d)]
      · rfl
    have hkw : ∀ d : Record, step2Keywords ports doc d =
        dictSet d "Parole chiave" "innovazione, digitalizzazione, PMI, Lombardia" := by
      intro d
      unfold step2Keywords
      rw [hllm (keywordsPrompt doc d)]
    have hd3 : ∀ d : Record, step3Dates ports doc d = d := by
      intro d
      unfold step3Dates
      split
      · rw [hllm (dateSearchPrompt doc)]
      · rfl
    have hv3 : ∀ d : Record, step3Validation ports doc d = d := by
      intro d
      unfold step3Validation
      rw [hllm (validationPrompt d doc)]
    rw [show extract_structured_info_hybrid ports doc fname sfile =
          step3Validation ports doc (step3Dates ports doc
            (dictSet (step2Aperto ports (step2Keywords ports doc
              (step2Desc ports doc (step1Fields ports)))) "Nome file" fname)) from rfl,
        e1, hdesc, hkw, hd3, hv3] at hkv
    by_cases hlen : doc.length > 500
    · rw [if_pos hlen] at hkv
      have hmem := dictGet_mem hkv
      simp only [step2Aperto] at hmem
      rw [show dictSet (dictSet (dictSet (dictSet
            [("Ente erogatore", sentinel), ("Titolo dell'avviso", sentinel),
             ("Apertura", sentinel), ("Chiusura", sentinel),
             ("Dotazione finanziaria", sentinel), ("Contributo", sentinel),
             ("Beneficiari", sentinel)]
            "Descrizione aggiuntiva" "Bando per il finanziamento di progetti innovativi")
            "Parole chiave" "innovazione, digitalizzazione, PMI, Lombardia")
            "Aperto" (computeAperto ports.now (dictGetD (dictSet (dictSet
              [("Ente erogatore", sentinel), ("Titolo dell'avviso", sentinel),
               ("Apertura", sentinel), ("Chiusura", sentinel),
               ("Dotazione finanziaria", sentinel), ("Contributo", sentinel),
               ("Beneficiari", sentinel)]
              "Descrizione aggiuntiva" "Bando per il finanziamento di progetti innovativi")
              "Parole chiave" "innovazione, digitalizzazione, PMI, Lombardia")
              "Chiusura" sentinel)))
            "Nome file" fname =
          [("Ente erogatore", sentinel), ("Titolo dell'avviso", sentinel),
           ("Apertura", sentinel), ("Chiusura", sentinel),
           ("Dotazione finanziaria", sentinel), ("Contributo", sentinel),
           ("Beneficiari", sentinel),
           ("Descrizione aggiuntiva", "Bando per il finanziamento di progetti innovativi"),
           ("Parole chiave", "innovazione, digitalizzazione, PMI, Lombardia"),
           ("Aperto", sentinel), ("Nome file", fname)] from rfl] at hmem
      have hv4 : v = sentinel ∨
          v = "Bando per il finanziamento di progetti innovativi" ∨
          v = "innovazione, digitalizzazione, PMI, Lombardia" ∨ v = fname := by
        simp only [List.mem_cons, List.not_mem_nil, or_false, Prod.mk.injEq] at hmem
        tauto
      rcases hv4 with rfl | rfl | rfl | rfl
      · decide
      · decide
      · decide
      · exact hf
    · rw [if_neg hlen] at hkv
      have hmem := dictGet_mem hkv
      simp only [step2Aperto] at hmem
      rw [show dictSet (dictSet (dictSet
            [("Ente erogatore", sentinel), ("Titolo dell'avviso", sentinel),
             ("Apertura", sentinel), ("Chiusura", sentinel),
             ("Dotazione finanziaria", sentinel), ("Contributo", sentinel),
             ("Beneficiari", sentinel)]
            "Parole chiave" "innovazione, digitalizzazione, PMI, Lombardia")
            "Aperto" (computeAperto ports.now (dictGetD (dictSet
              [("Ente erogatore", sentinel), ("Titolo dell'avviso", sentinel),
               ("Apertura", sentinel), ("Chiusura", sentinel),
               ("Dotazione finanziaria", sentinel), ("Contributo", sentinel),
               ("Beneficiari", sentinel)]
              "Parole chiave" "innovazione, digitalizzazione, PMI, Lombardia")
              "Chiusura" sentinel)))
            "Nome file" fname =
          [("Ente erogatore", sentinel), ("Titolo dell'avviso", sentinel),
           ("Apertura", sentinel), ("Chiusura", sentinel),
           ("Dotazione finanziaria", sentinel), ("Contributo", sentinel),
           ("Beneficiari", sentinel),
           ("Parole chiave", "innovazione, digitalizzazione, PMI, Lombardia"),
           ("Aperto", sentinel), ("Nome file", fname)] from rfl] at hmem
      have hv4 : v = sentinel ∨
          v = "innovazione, digitalizzazione, PMI, Lombardia" ∨ v = fname := by
        simp only [List.mem_cons, List.not_mem_nil, or_false, Prod.mk.injEq] at hmem
        tauto
      rcases hv4 with rfl | rfl | rfl
      · decide
      · decide
      · exact hf

/-- C1 amended witness: with failing collaborators, an empty document and a
non-empty filename, the open-status key is present (and, per the
counterexample above, the description key is absent). -/
theorem record_shape_amended_witness :
    (dictGet (extract_structured_info_hybrid failingPorts "" "f.pdf" "") "Aperto").isSome
      = true ∧
    ("f.pdf" ≠ "" ∧
      dictGet (extract_structured_info_hybrid failingPorts "" "f.pdf" "") "Aperto" ≠
        some "") := by
  refine ⟨(record_shape_amended failingPorts "" "f.pdf" "").1 "Aperto" (by decide), by decide,
    fun hc => (record_shape_amended failingPorts "" "f.pdf" "").2.2
      (fun p => rfl) (by decide) "Aperto" "" hc rfl⟩

end BandiLombardia
